import Mathlib

/-!
Verification development for the core of the imapdl IMAP download client.

The development shallowly embeds the two source files of the repository:

* `src/net/ssl_verification.cc` — the TLS certificate verifier with SHA-1
  fingerprint pinning (`Net::SSL::Verification`);
* `src/unnamed/part_000` — the IMAP session state machine and fetch-ingestor
  callbacks (`IMAP::Copy::Client`).

Strings from the C++ side that we reason about (fingerprints) are embedded as
`List Char`; incidental strings (usernames, log messages) stay `String`.
Asynchronous completion handlers become pure functions from the client state
and the completion's error code to `Except String (Client × List Effect)`:
`Except.error` models an exception thrown out of the handler (`THROW_ERROR` /
`THROW_MSG`), and the `Effect` list records, in order, the externally visible
operations the handler performs (commands written to the transport, timer and
transport operations, maildir file moves).
-/

/-! ## Certificate verifier (`src/net/ssl_verification.cc`) -/

/-- `boost::to_upper_copy` / case folding on the character list of a string. -/
def toUpperChars (s : List Char) : List Char := s.map Char.toUpper

/-- The state of `Net::SSL::Verification`: `pos_` (number of invocations so
far; position 1 is the leaf certificate), the cached `result_`, and the pinned
fingerprint `fingerprint_` (upper-cased at construction). -/
structure Verification where
  pos : Nat
  result : Bool
  fingerprint : List Char
deriving DecidableEq

/-- The constructor `Verification::Verification`: `pos_` and `result_` start
at their zero-initialised values and the pinned fingerprint is upper-cased
(`boost::to_upper_copy`). -/
def Verification.init (fingerprint : List Char) : Verification :=
  { pos := 0, result := false, fingerprint := toUpperChars fingerprint }

/-- Outcome of one invocation of `Verification::operator()`: the updated
verifier state, the returned boolean, and whether the default PKI verifier
`default_` was consulted in this invocation. -/
structure VerifyOutcome where
  state : Verification
  ret : Bool
  consultedDefault : Bool
deriving DecidableEq

/-- `Verification::operator()(preverified, ctx)`. The SHA-1 fingerprint of
the presented certificate, as the code computes it with `boost::algorithm::hex`
(upper-case hex), is the parameter `fp`; the result of delegating to the
default PKI verifier `default_(preverified, ctx)` is the oracle parameter
`defaultResult` (the code does not inspect `preverified` itself on the
pinning path). The nested redundant `if (pos_ == 1)` of the source is kept. -/
def Verification.call (v : Verification) (fp : List Char)
    (preverified defaultResult : Bool) : VerifyOutcome :=
  let v := { v with pos := v.pos + 1 }
  if v.result then
    { state := v, ret := v.result, consultedDefault := false }
  else if v.fingerprint ≠ [] ∧ v.pos = 1 then
    let v := if v.pos = 1 then
        { v with result := decide (v.fingerprint = fp) }
      else v
    { state := v, ret := v.result, consultedDefault := false }
  else
    { state := v, ret := defaultResult, consultedDefault := true }

theorem toUpperChars_ne_nil {s : List Char} (h : s ≠ []) : toUpperChars s ≠ [] := by
  simpa [toUpperChars] using h

/-- Claim C1: with a non-empty pinned fingerprint, at chain position 1 (the
first invocation), the verifier returns `true` exactly when the certificate's
fingerprint equals the pinned value compared case-insensitively — regardless
of the preverified PKI result — and the default PKI verifier is not consulted
in that invocation. (`fp` ranges over the upper-case hex digests the code
computes, whence the hypothesis `toUpperChars fp = fp`.) -/
theorem C1_fingerprint_pinning (pinned fp : List Char)
    (hpin : pinned ≠ []) (hfp : toUpperChars fp = fp)
    (preverified defaultResult : Bool) :
    ((toUpperChars pinned = toUpperChars fp) →
       ((Verification.init pinned).call fp preverified defaultResult).ret = true) ∧
    ((toUpperChars pinned ≠ toUpperChars fp) →
       ((Verification.init pinned).call fp preverified defaultResult).ret = false) ∧
    ((Verification.init pinned).call fp preverified defaultResult).consultedDefault = false := by
  have hne : toUpperChars pinned ≠ [] := toUpperChars_ne_nil hpin
  refine ⟨?_, ?_, ?_⟩ <;>
    simp [Verification.init, Verification.call, hne, hfp]

/-- Witness for C1 at a concrete pinned fingerprint and matching certificate. -/
theorem C1_fingerprint_pinning_witness :
    (['A', 'B'] : List Char) ≠ [] ∧ toUpperChars ['A', 'B'] = ['A', 'B'] ∧
    ((Verification.init ['A', 'B']).call ['A', 'B'] false false).ret = true := by
  refine ⟨by decide, by decide, ?_⟩
  exact (C1_fingerprint_pinning ['A', 'B'] ['A', 'B'] (by decide) (by decide)
    false false).1 (by decide)

/-- Claim C10: a position-1 fingerprint mismatch caches `result_ = false`, and
that cached negative is not returned by later invocations: at positions
greater than 1 the verifier falls through to the default PKI verifier and
returns its result. Only a cached positive (`result_ = true`) short-circuits a
subsequent invocation (final conjunct). -/
theorem C10_negative_cache_falls_through (pinned fp1 fp2 : List Char)
    (pre1 def1 pre2 def2 : Bool)
    (hpin : pinned ≠ []) (hmis : toUpperChars pinned ≠ fp1) :
    ((Verification.init pinned).call fp1 pre1 def1).ret = false ∧
    ((Verification.init pinned).call fp1 pre1 def1).state.result = false ∧
    ((((Verification.init pinned).call fp1 pre1 def1).state.call fp2 pre2 def2).consultedDefault
        = true) ∧
    ((((Verification.init pinned).call fp1 pre1 def1).state.call fp2 pre2 def2).ret = def2) ∧
    (∀ (v : Verification) (g : List Char) (p d : Bool),
       v.result = true →
         (v.call g p d).ret = true ∧ (v.call g p d).consultedDefault = false) := by
  have hne : toUpperChars pinned ≠ [] := toUpperChars_ne_nil hpin
  refine ⟨?_, ?_, ?_, ?_, ?_⟩
  · simp [Verification.init, Verification.call, hne, hmis]
  · simp [Verification.init, Verification.call, hne, hmis]
  · simp [Verification.init, Verification.call, hne, hmis]
  · simp [Verification.init, Verification.call, hne, hmis]
  · intro v g p d hv
    constructor <;> simp [Verification.call, hv]

/-- Witness for C10 at a concrete mismatching pinned fingerprint. -/
theorem C10_negative_cache_falls_through_witness :
    (['A', 'B'] : List Char) ≠ [] ∧ toUpperChars ['A', 'B'] ≠ ['C', 'D'] ∧
    ((((Verification.init ['A', 'B']).call ['C', 'D'] true false).state.call
        ['E', 'F'] true true).ret = true) := by
  refine ⟨by decide, by decide, ?_⟩
  exact (C10_negative_cache_falls_through ['A', 'B'] ['C', 'D'] ['E', 'F']
    true false true true (by decide) (by decide)).2.2.2.1

/-! ## IMAP session client (`src/unnamed/part_000`, `IMAP::Copy::Client`) -/

namespace IMAP

/-- The session-state enumeration `IMAP::Copy::State`, with its two sentinels.
The `FIRST_`/`LAST_` positions are not fixed by the source file; they are
placed at the two ends, which is consistent with every use in it. -/
inductive State
  | FIRST_
  | DISCONNECTED
  | ESTABLISHED
  | GOT_INITIAL_CAPABILITIES
  | LOGGED_IN
  | GOT_CAPABILITIES
  | SELECTED_MAILBOX
  | FETCHING
  | FETCHED
  | STORED
  | EXPUNGED
  | LOGGING_OUT
  | LOGGED_OUT
  | END
  | LAST_
deriving DecidableEq

/-- Numeric value of a state, for the enum arithmetic of
`State operator++`/`operator+`. -/
def State.toNat : State → Nat
  | .FIRST_ => 0
  | .DISCONNECTED => 1
  | .ESTABLISHED => 2
  | .GOT_INITIAL_CAPABILITIES => 3
  | .LOGGED_IN => 4
  | .GOT_CAPABILITIES => 5
  | .SELECTED_MAILBOX => 6
  | .FETCHING => 7
  | .FETCHED => 8
  | .STORED => 9
  | .EXPUNGED => 10
  | .LOGGING_OUT => 11
  | .LOGGED_OUT => 12
  | .END => 13
  | .LAST_ => 14

/-- `state + 1` / `++state` on the enumeration (clamped at the sentinel). -/
def State.next : State → State
  | .FIRST_ => .DISCONNECTED
  | .DISCONNECTED => .ESTABLISHED
  | .ESTABLISHED => .GOT_INITIAL_CAPABILITIES
  | .GOT_INITIAL_CAPABILITIES => .LOGGED_IN
  | .LOGGED_IN => .GOT_CAPABILITIES
  | .GOT_CAPABILITIES => .SELECTED_MAILBOX
  | .SELECTED_MAILBOX => .FETCHING
  | .FETCHING => .FETCHED
  | .FETCHED => .STORED
  | .STORED => .EXPUNGED
  | .EXPUNGED => .LOGGING_OUT
  | .LOGGING_OUT => .LOGGED_OUT
  | .LOGGED_OUT => .END
  | .END => .LAST_
  | .LAST_ => .LAST_

/-- The capability tokens the client inspects
(`IMAP::Server::Response::Capability`); all others are collapsed into
`other`. -/
inductive Capability
  | LOGINDISABLED
  | UIDPLUS
  | IMAP4rev1
  | other (n : Nat)
deriving DecidableEq

/-- `IMAP::Flag`. -/
inductive Flag
  | ANSWERED
  | SEEN
  | FLAGGED
  | DRAFT
  | RECENT
  | DELETED
  | FIRST_
  | LAST_
deriving DecidableEq

/-- `IMAP::Server::Response::Status` of a tagged status response. -/
inductive Status
  | OK
  | NO
  | BAD
  | PREAUTH
  | BYE
deriving DecidableEq

/-- Rendering of a status for log/error messages (`operator<<`). -/
def Status.str : Status → String
  | .OK => "OK"
  | .NO => "NO"
  | .BAD => "BAD"
  | .PREAUTH => "PREAUTH"
  | .BYE => "BYE"

/-- `IMAP::Client::Store_Mode`. -/
inductive StoreMode
  | REPLACE
  | ADD
  | REMOVE
deriving DecidableEq

/-- `IMAP::Client::Fetch` attribute kinds used by `do_fetch`. -/
inductive FetchKind
  | UID
  | FLAGS
  | BODY_PEEK
deriving DecidableEq

/-- `IMAP::Section` kinds used by `do_fetch`. -/
inductive SectionKind
  | HEADER_FIELDS
deriving DecidableEq

/-- `IMAP::Section_Attribute`: a section specifier plus its header-field
list. -/
structure SectionAttribute where
  kind : SectionKind
  fields : List String
deriving DecidableEq

/-- `IMAP::Client::Fetch_Attribute`: an attribute, optionally with a section
attribute. -/
inductive FetchAttr
  | att (f : FetchKind)
  | att_sec (f : FetchKind) (s : SectionAttribute)
deriving DecidableEq

/-- A command handed to the external writer together with the freshly
generated tag. Tags are modelled as the value of a per-client counter.
The UID sets of `uid_store`/`uid_expunge` are the collected UIDs
(`uids_.copy(set)`); the external range-set type serialises them, which the
embedding does not depend on. -/
inductive Cmd
  | capability (tag : Nat)
  | login (user pass : String) (tag : Nat)
  | select (mailbox : String) (tag : Nat)
  | fetch (set : List (Nat × Nat)) (atts : List FetchAttr) (tag : Nat)
  | uid_store (set : List Nat) (flags : List Flag) (tag : Nat)
      (mode : StoreMode) (silent : Bool)
  | store (set : List Nat) (flags : List Flag) (tag : Nat)
      (mode : StoreMode) (silent : Bool)
  | uid_expunge (set : List Nat) (tag : Nat)
  | expunge (tag : Nat)
  | logout (tag : Nat)
deriving DecidableEq

/-- The externally visible operations a handler performs, in order. -/
inductive Effect
  | write (cmd : Cmd)
  | rearmSignalWait
  | cancelTransport
  | asyncShutdown
  | printFetchStats
  | cancelFetchTimer
  | startFetchTimer
  | rearmFetchTimer
  | openTmpFile
  | closeFile
  | moveToNew
  | moveToCur (flags : List Char)
deriving DecidableEq

/-- The target of the parser's buffer proxy (`buffer_proxy_`): the in-memory
buffer `buffer_` or the on-disk temporary file `file_buffer_`. -/
inductive BufTarget
  | memory
  | file
deriving DecidableEq

/-- `boost::system::error_code` categories the client distinguishes. -/
inductive ErrCategory
  | ssl
  | misc
  | system
deriving DecidableEq

/-- A completion-handler error code: category plus numeric value. -/
structure ErrCode where
  category : ErrCategory
  value : Nat
deriving DecidableEq

/-- OpenSSL's `ERR_PACK(lib, func, reason)`. -/
def ERR_PACK (l f r : Nat) : Nat := l * 2 ^ 24 + f * 2 ^ 12 + r

/-- OpenSSL's `ERR_LIB_SSL`. -/
def ERR_LIB_SSL : Nat := 20

/-- OpenSSL's `SSL_R_SHORT_READ`. -/
def SSL_R_SHORT_READ : Nat := 219

/-- `boost::asio::error::eof` (misc category). -/
def eof_value : Nat := 2

/-- `boost::asio::error::operation_aborted` (`ECANCELED` on POSIX). -/
def operation_aborted_value : Nat := 125

/-- `boost::system::errc::operation_canceled` (`ECANCELED`). -/
def operation_canceled_value : Nat := 125

/-- The state of `IMAP::Copy::Client`: the options it consults, the session
state, the tag registry `tag_to_state_` (with the writer's tag generation
modelled by `tag_counter`), the capability set, the mailbox metadata
(`exists_`, `recent_`, `uidvalidity_`, the collected `uids_`), the
per-message working set (`flags_`, `full_body_`), `fetched_messages_`,
`signaled_`, the buffer proxy target, and the accumulated response buffer
`buffer_` (as a string, as the error path reads it). -/
structure Client where
  opts_del : Bool
  opts_username : String
  opts_password : String
  opts_mailbox : String
  state : State
  tag_to_state : List (Nat × State)
  tag_counter : Nat
  capabilities : List Capability
  exists_ : Nat
  recent_ : Nat
  uidvalidity_ : Nat
  uids : List Nat
  flags_ : List Char
  full_body : Bool
  fetched_messages : Nat
  signaled : Nat
  buffer_proxy : BufTarget
  buffer : String
deriving DecidableEq

/-- Lookup-then-erase on the tag registry: removal of the entry the lookup
found (`tag_to_state_.erase(i)`). -/
def eraseTag (tag : Nat) (l : List (Nat × State)) : List (Nat × State) :=
  l.eraseP (fun p => p.1 == tag)

/-- `Client::has_uidplus`. -/
def has_uidplus (c : Client) : Bool :=
  Capability.UIDPLUS ∈ c.capabilities

/-- `Client::do_login` (lines 304–324): fail if the capability set contains
`LOGINDISABLED`; otherwise clear the capability set, emit LOGIN under a fresh
tag registered to `LOGGED_IN`, and reset `exists_`, `recent_`,
`uidvalidity_` and the collected UID set. -/
def do_login (c : Client) : Except String (Client × List Effect) :=
  if Capability.LOGINDISABLED ∈ c.capabilities then
    Except.error "Cannot login because server has LOGINDISABLED"
  else
    let tag := c.tag_counter
    Except.ok
      ({ c with capabilities := [],
                tag_counter := c.tag_counter + 1,
                tag_to_state := (tag, State.LOGGED_IN) :: c.tag_to_state,
                exists_ := 0, recent_ := 0, uidvalidity_ := 0, uids := [] },
       [Effect.write (Cmd.login c.opts_username c.opts_password tag)])

/-- `Client::do_select`. -/
def do_select (c : Client) : Except String (Client × List Effect) :=
  let tag := c.tag_counter
  Except.ok
    ({ c with tag_counter := c.tag_counter + 1,
              tag_to_state := (tag, State.SELECTED_MAILBOX) :: c.tag_to_state },
     [Effect.write (Cmd.select c.opts_mailbox tag)])

/-- `Client::do_fetch`: FETCH `1:*` with UID, FLAGS,
BODY.PEEK[HEADER.FIELDS (date from subject)] and BODY.PEEK[]; the tag is
registered to `FETCHED`, the state moves to `FETCHING`, and the fetch-stats
timer is started before the command bytes are pushed. -/
def do_fetch (c : Client) : Except String (Client × List Effect) :=
  let tag := c.tag_counter
  let set : List (Nat × Nat) := [(1, 4294967295)]
  let atts : List FetchAttr :=
    [FetchAttr.att FetchKind.UID,
     FetchAttr.att FetchKind.FLAGS,
     FetchAttr.att_sec FetchKind.BODY_PEEK
       { kind := SectionKind.HEADER_FIELDS, fields := ["date", "from", "subject"] },
     FetchAttr.att FetchKind.BODY_PEEK]
  Except.ok
    ({ c with tag_counter := c.tag_counter + 1,
              tag_to_state := (tag, State.FETCHED) :: c.tag_to_state,
              state := State.FETCHING },
     [Effect.startFetchTimer, Effect.write (Cmd.fetch set atts tag)])

/-- `Client::do_logout`: emit LOGOUT under a tag registered to `LOGGED_OUT`
and move the state to `LOGGING_OUT`. -/
def do_logout (c : Client) : Except String (Client × List Effect) :=
  let tag := c.tag_counter
  Except.ok
    ({ c with tag_counter := c.tag_counter + 1,
              tag_to_state := (tag, State.LOGGED_OUT) :: c.tag_to_state,
              state := State.LOGGING_OUT },
     [Effect.write (Cmd.logout tag)])

/-- `Client::do_fetch_or_logout`. -/
def do_fetch_or_logout (c : Client) : Except String (Client × List Effect) :=
  if c.exists_ ≠ 0 then do_fetch c else do_logout c

/-- `Client::do_store` (lines 388–402): a UID STORE of the `\Deleted` flag
over the collected UIDs, with `Store_Mode::REPLACE` and `silent = true`,
under a tag registered to `STORED`. -/
def do_store (c : Client) : Except String (Client × List Effect) :=
  let tag := c.tag_counter
  Except.ok
    ({ c with tag_counter := c.tag_counter + 1,
              tag_to_state := (tag, State.STORED) :: c.tag_to_state },
     [Effect.write (Cmd.uid_store c.uids [Flag.DELETED] tag StoreMode.REPLACE true)])

/-- `Client::do_store_or_logout`. -/
def do_store_or_logout (c : Client) : Except String (Client × List Effect) :=
  if c.opts_del then do_store c else do_logout c

/-- `Client::do_uid_expunge`. -/
def do_uid_expunge (c : Client) : Except String (Client × List Effect) :=
  let tag := c.tag_counter
  Except.ok
    ({ c with tag_counter := c.tag_counter + 1,
              tag_to_state := (tag, State.EXPUNGED) :: c.tag_to_state },
     [Effect.write (Cmd.uid_expunge c.uids tag)])

/-- `Client::do_expunge`. -/
def do_expunge (c : Client) : Except String (Client × List Effect) :=
  let tag := c.tag_counter
  Except.ok
    ({ c with tag_counter := c.tag_counter + 1,
              tag_to_state := (tag, State.EXPUNGED) :: c.tag_to_state },
     [Effect.write (Cmd.expunge tag)])

/-- `Client::do_uid_or_simple_expunge`. -/
def do_uid_or_simple_expunge (c : Client) : Except String (Client × List Effect) :=
  if has_uidplus c then do_uid_expunge c else do_expunge c

/-- `Client::do_quit`: cancel the transport, then initiate the asynchronous
shutdown. -/
def do_quit (c : Client) : Except String (Client × List Effect) :=
  Except.ok (c, [Effect.cancelTransport, Effect.asyncShutdown])

/-- The non-short-circuit arm of `Client::do_capabilities`: emit CAPABILITY
under a fresh tag registered to `state_ + 1` (the state itself is not
changed). -/
def capability_request (c : Client) : Client × List Effect :=
  let tag := c.tag_counter
  ({ c with tag_counter := c.tag_counter + 1,
            tag_to_state := (tag, c.state.next) :: c.tag_to_state },
   [Effect.write (Cmd.capability tag)])

/-- `Client::command` (lines 226–270): dispatch the next protocol action on
the current state. In the `LOGGED_IN` arm the body of `do_capabilities` is
spelled inline (the capability short-circuit `++state_; command();` is its
recursive call); `command_at_logged_in` below re-states that arm as the
`do_capabilities` the source calls. The `FETCHED` arm performs
`stop_fetch_timer()` (print the stats, cancel the timer) before
`do_store_or_logout()`. -/
def command (c : Client) : Except String (Client × List Effect) :=
  match h : c.state with
  | State.FIRST_ => Except.ok (c, [])
  | State.LAST_ => Except.ok (c, [])
  | State.DISCONNECTED => Except.ok (c, [])
  | State.ESTABLISHED => Except.ok (c, [])
  | State.GOT_INITIAL_CAPABILITIES => do_login c
  | State.LOGGED_IN =>
      if c.capabilities ≠ [] then
        command { c with state := c.state.next }
      else
        Except.ok (capability_request c)
  | State.GOT_CAPABILITIES => do_select c
  | State.SELECTED_MAILBOX => do_fetch_or_logout c
  | State.FETCHING => Except.ok (c, [])
  | State.FETCHED =>
      match do_store_or_logout c with
      | Except.ok (c2, effs) =>
          Except.ok (c2, Effect.printFetchStats :: Effect.cancelFetchTimer :: effs)
      | Except.error msg => Except.error msg
  | State.STORED => do_uid_or_simple_expunge c
  | State.EXPUNGED => do_logout c
  | State.LOGGING_OUT => Except.ok (c, [])
  | State.LOGGED_OUT => do_quit c
  | State.END => Except.ok (c, [])
termination_by (16 - c.state.toNat : Nat)
decreasing_by
  simp only [h, State.next, State.toNat]
  omega

/-- `Client::do_capabilities` (lines 288–302): if the capability set is
non-empty, advance the state by one and re-dispatch `command()`; otherwise
emit a CAPABILITY request. -/
def do_capabilities (c : Client) : Except String (Client × List Effect) :=
  if c.capabilities ≠ [] then
    command { c with state := c.state.next }
  else
    Except.ok (capability_request c)

/-- The `LOGGED_IN` arm of `command` is exactly the `do_capabilities` call of
the source. -/
theorem command_at_logged_in (c : Client) (h : c.state = State.LOGGED_IN) :
    command c = do_capabilities c := by
  rw [command.eq_def]
  split <;> simp_all [do_capabilities]

/-- The lambda armed by `Client::do_pre_login` (lines 272–286) on the
greeting-wait one-shot `login_timer_`: any error — including a cancellation —
is thrown; on expiry it proceeds to `do_capabilities()`. -/
def pre_login_handler (c : Client) (ec : Option ErrCode) :
    Except String (Client × List Effect) :=
  match ec with
  | some e => Except.error ("error_code " ++ Nat.repr e.value)
  | none => do_capabilities c

/-- The lambda armed by `Client::resume_fetch_timer` (lines 204–219) on the
1-second periodic `fetch_timer_`: an `operation_aborted` error returns
silently, any other error is thrown; on expiry it prints the fetch stats and
re-arms itself. -/
def fetch_timer_handler (c : Client) (ec : Option ErrCode) :
    Except String (Client × List Effect) :=
  match ec with
  | some e =>
      if e.value = operation_aborted_value then Except.ok (c, [])
      else Except.error ("error_code " ++ Nat.repr e.value)
  | none => Except.ok (c, [Effect.printFetchStats, Effect.rearmFetchTimer])

/-- The error branch of the read-completion lambda of `Client::do_read`
(lines 454–485): a TLS `SHORT_READ` or a misc-category `EOF` while the state
is `LOGGED_OUT` is swallowed (nothing further is enqueued); every other error
is thrown. The success branch (push bytes through the lexer, re-arm the read)
re-enters the external parser and is not part of any claim. -/
def do_read_error (c : Client) (e : ErrCode) :
    Except String (Client × List Effect) :=
  if c.state = State.LOGGED_OUT ∧
     ((e.category = ErrCategory.ssl ∧ e.value = ERR_PACK ERR_LIB_SSL 0 SSL_R_SHORT_READ) ∨
      (e.category = ErrCategory.misc ∧ e.value = eof_value)) then
    Except.ok (c, [])
  else
    Except.error "do_read() fail"

/-- The lambda armed by `Client::do_signal_wait` (lines 105–129): a wait
cancellation (`operation_canceled`) is ignored, any other error is thrown; on
a delivered signal, if `signaled_` is already non-zero the handler throws the
immediate-exit message, otherwise it increments `signaled_`, re-arms the wait
(`do_signal_wait()`), and quits (`do_quit()`: transport cancel + shutdown). -/
def signal_handler (c : Client) (ec : Option ErrCode) (signal_number : Nat) :
    Except String (Client × List Effect) :=
  match ec with
  | some e =>
      if e.value = operation_canceled_value then Except.ok (c, [])
      else Except.error ("error_code " ++ Nat.repr e.value)
  | none =>
      if c.signaled ≠ 0 then
        Except.error
          ("Got a signal (" ++ Nat.repr signal_number ++ ") the second time - immediate exit")
      else
        Except.ok ({ c with signaled := c.signaled + 1 },
          [Effect.rearmSignalWait, Effect.cancelTransport, Effect.asyncShutdown])

/-- `Client::imap_status_code_capability_begin`. -/
def imap_status_code_capability_begin (c : Client) : Client :=
  { c with capabilities := [] }

/-- `Client::imap_capability`: insert into the capability set. -/
def imap_capability (c : Client) (capability : Capability) : Client :=
  { c with capabilities := c.capabilities.insert capability }

/-- `Client::imap_tagged_status_end` (lines 546–567): a non-OK status throws
the accumulated response buffer; an unknown tag throws; otherwise the state
becomes the registered one, the registry entry is erased, and `command()` is
invoked. -/
def imap_tagged_status_end (c : Client) (tag : Nat) (st : Status) :
    Except String (Client × List Effect) :=
  if st ≠ Status.OK then
    Except.error ("Command failed: " ++ Status.str st ++ " - " ++ c.buffer)
  else
    match c.tag_to_state.lookup tag with
    | none => Except.error ("Got unknown tag: " ++ Nat.repr tag)
    | some s =>
        command { c with state := s, tag_to_state := eraseTag tag c.tag_to_state }

/-- `Client::imap_data_exists`. -/
def imap_data_exists (c : Client) (number : Nat) : Client :=
  { c with exists_ := number }

/-- `Client::imap_data_recent`. -/
def imap_data_recent (c : Client) (number : Nat) : Client :=
  { c with recent_ := number }

/-- `Client::imap_status_code_uidvalidity`. -/
def imap_status_code_uidvalidity (c : Client) (n : Nat) : Client :=
  { c with uidvalidity_ := n }

/-- `Client::imap_data_fetch_begin`: clear the per-message flags. -/
def imap_data_fetch_begin (c : Client) (number : Nat) : Client :=
  { c with flags_ := [] }

/-- `Client::imap_section_empty`. -/
def imap_section_empty (c : Client) : Client :=
  { c with full_body := true }

/-- `Client::imap_body_section_inner`: in `FETCHING` with `full_body_` set,
open a fresh maildir temporary file and point the buffer proxy at it. -/
def imap_body_section_inner (c : Client) : Client × List Effect :=
  if c.state = State.FETCHING then
    if c.full_body then
      ({ c with buffer_proxy := BufTarget.file }, [Effect.openTmpFile])
    else (c, [])
  else (c, [])

/-- `Client::imap_body_section_end` (lines 616–633): in `FETCHING` with
`full_body_` set, restore the buffer proxy to the memory buffer, close the
file, move it to `new/` when no flags accumulated and otherwise to `cur/`
with the accumulated flag suffix, clear `full_body_` and count the message. -/
def imap_body_section_end (c : Client) : Client × List Effect :=
  if c.state = State.FETCHING then
    if c.full_body then
      ({ c with buffer_proxy := BufTarget.memory,
                full_body := false,
                fetched_messages := c.fetched_messages + 1 },
       Effect.closeFile ::
         (if c.flags_ = [] then [Effect.moveToNew] else [Effect.moveToCur c.flags_]))
    else (c, [])
  else (c, [])

/-- `Client::imap_flag` (lines 634–655): append the maildir letter of the
IMAP flag; `\Recent`, `\Deleted` and the sentinels contribute nothing. -/
def imap_flag (c : Client) (flag : Flag) : Client :=
  match flag with
  | Flag.ANSWERED => { c with flags_ := c.flags_ ++ ['R'] }
  | Flag.SEEN => { c with flags_ := c.flags_ ++ ['S'] }
  | Flag.FLAGGED => { c with flags_ := c.flags_ ++ ['F'] }
  | Flag.DRAFT => { c with flags_ := c.flags_ ++ ['D'] }
  | Flag.RECENT => c
  | Flag.DELETED => c
  | Flag.FIRST_ => c
  | Flag.LAST_ => c

/-- `Client::imap_uid`: record the UID while in `FETCHING`. -/
def imap_uid (c : Client) (number : Nat) : Client :=
  if c.state = State.FETCHING then { c with uids := c.uids ++ [number] } else c

/-- The maildir letter of an IMAP flag, when it has one (the mapping of
`Client::imap_flag`). -/
def maildirChar : Flag → Option Char
  | Flag.ANSWERED => some 'R'
  | Flag.SEEN => some 'S'
  | Flag.FLAGGED => some 'F'
  | Flag.DRAFT => some 'D'
  | Flag.RECENT => none
  | Flag.DELETED => none
  | Flag.FIRST_ => none
  | Flag.LAST_ => none

/-- The commands a handler outcome writes to the transport, in order. -/
def writtenCmds (r : Except String (Client × List Effect)) : List Cmd :=
  match r with
  | Except.ok p =>
      p.2.filterMap (fun e => match e with | Effect.write cmd => some cmd | _ => none)
  | Except.error _ => []

/-- A concrete client configuration used by the witnesses. -/
def sampleClient : Client :=
  { opts_del := true
    opts_username := "u"
    opts_password := "p"
    opts_mailbox := "INBOX"
    state := State.DISCONNECTED
    tag_to_state := []
    tag_counter := 0
    capabilities := []
    exists_ := 0
    recent_ := 0
    uidvalidity_ := 0
    uids := []
    flags_ := []
    full_body := false
    fetched_messages := 0
    signaled := 0
    buffer_proxy := BufTarget.memory
    buffer := "" }

/-! ## Claims about the session client -/

/-- The store command predicted by claim C2 read literally: STORE, or UID
STORE when the server advertises UIDPLUS, in add mode (`+FLAGS.SILENT`).
This definition follows the claim's words, for comparison with `do_store`. -/
def C2_claimed_store_cmd (c : Client) (tag : Nat) : Cmd :=
  if has_uidplus c then
    Cmd.uid_store c.uids [Flag.DELETED] tag StoreMode.ADD true
  else
    Cmd.store c.uids [Flag.DELETED] tag StoreMode.ADD true

/-- A client with deletion enabled that reached `FETCHED` having collected
UIDs 3, 5 and 7, and whose server did not advertise UIDPLUS. -/
def c2client : Client :=
  { sampleClient with state := State.FETCHED, uids := [3, 5, 7] }

/-- Counterexample to claim C2: at `FETCHED` with deletion enabled, the code
writes `uid_store` with `Store_Mode::REPLACE` — unconditionally UID STORE,
not the plain add-mode STORE the claim predicts for a server without
UIDPLUS. -/
theorem C2_store_counterexample :
    writtenCmds (command c2client) =
      [Cmd.uid_store [3, 5, 7] [Flag.DELETED] 0 StoreMode.REPLACE true] ∧
    C2_claimed_store_cmd c2client 0 =
      Cmd.store [3, 5, 7] [Flag.DELETED] 0 StoreMode.ADD true ∧
    Cmd.store [3, 5, 7] [Flag.DELETED] 0 StoreMode.ADD true ≠
      Cmd.uid_store [3, 5, 7] [Flag.DELETED] 0 StoreMode.REPLACE true := by
  refine ⟨?_, ?_, ?_⟩
  · rw [command.eq_def]; rfl
  · rfl
  · decide

/-- Claim C2 as amended: whenever deletion is enabled and the session reaches
`FETCHED`, the next command issued is UID STORE — emitted unconditionally,
without consulting UIDPLUS — as a replace-mode (`FLAGS.SILENT`), silent store
of the `\Deleted` flag over the set of collected UIDs (after the fetch-stats
timer is stopped). -/
theorem C2_fetched_uid_store_replace (c : Client)
    (hst : c.state = State.FETCHED) (hdel : c.opts_del = true) :
    command c =
      Except.ok
        ({ c with tag_counter := c.tag_counter + 1,
                  tag_to_state := (c.tag_counter, State.STORED) :: c.tag_to_state },
         [Effect.printFetchStats, Effect.cancelFetchTimer,
          Effect.write (Cmd.uid_store c.uids [Flag.DELETED] c.tag_counter
            StoreMode.REPLACE true)]) := by
  rw [command.eq_def]
  split <;> simp_all [do_store_or_logout, do_store]

/-- Witness for the amended C2 at the concrete client `c2client`. -/
theorem C2_fetched_uid_store_replace_witness :
    c2client.state = State.FETCHED ∧ c2client.opts_del = true ∧
    command c2client =
      Except.ok
        ({ c2client with tag_counter := c2client.tag_counter + 1,
                         tag_to_state :=
                           (c2client.tag_counter, State.STORED) :: c2client.tag_to_state },
         [Effect.printFetchStats, Effect.cancelFetchTimer,
          Effect.write (Cmd.uid_store c2client.uids [Flag.DELETED] c2client.tag_counter
            StoreMode.REPLACE true)]) :=
  ⟨rfl, rfl, C2_fetched_uid_store_replace c2client rfl rfl⟩

/-- Claim C3: a tagged status that is not OK fails fatally with the
accumulated response buffer; an OK status with an unregistered tag fails
fatally; an OK status with a registered tag sets the state to the registered
value, erases the registry entry, and invokes `command()`. -/
theorem C3_tagged_status_dispatch (c : Client) (tag : Nat) (st : Status) :
    (st ≠ Status.OK →
       imap_tagged_status_end c tag st =
         Except.error ("Command failed: " ++ Status.str st ++ " - " ++ c.buffer)) ∧
    (st = Status.OK → c.tag_to_state.lookup tag = none →
       imap_tagged_status_end c tag st =
         Except.error ("Got unknown tag: " ++ Nat.repr tag)) ∧
    (∀ s, st = Status.OK → c.tag_to_state.lookup tag = some s →
       imap_tagged_status_end c tag st =
         command { c with state := s, tag_to_state := eraseTag tag c.tag_to_state }) := by
  refine ⟨?_, ?_, ?_⟩
  · intro h
    simp [imap_tagged_status_end, h]
  · intro h hl
    simp [imap_tagged_status_end, h, hl]
  · intro s h hl
    simp [imap_tagged_status_end, h, hl]

/-- A client with one registered tag, for the C3 witness. -/
def c3client : Client :=
  { sampleClient with tag_to_state := [(7, State.LOGGED_IN)], buffer := "resp" }

/-- Witness for C3: consuming the registered tag 7 dispatches `command()` on
the registered state. -/
theorem C3_tagged_status_dispatch_witness :
    (Status.OK = Status.OK) ∧ c3client.tag_to_state.lookup 7 = some State.LOGGED_IN ∧
    imap_tagged_status_end c3client 7 Status.OK =
      command { c3client with state := State.LOGGED_IN,
                              tag_to_state := eraseTag 7 c3client.tag_to_state } :=
  ⟨rfl, rfl, (C3_tagged_status_dispatch c3client 7 Status.OK).2.2 State.LOGGED_IN rfl rfl⟩

/-- Folding `imap_flag` appends exactly the maildir letters of the received
flags, in emission order. -/
theorem foldl_imap_flag (fs : List Flag) (c : Client) :
    fs.foldl imap_flag c = { c with flags_ := c.flags_ ++ fs.filterMap maildirChar } := by
  induction fs generalizing c with
  | nil => simp
  | cons f t ih => cases f <;> simp [imap_flag, maildirChar, ih]

/-- Claim C4: a `body_section_end` in `FETCHING` with `full_body` set, after
the flags of the message were accumulated from the parser's emissions,
restores the buffer proxy to the memory buffer, closes the file, moves it to
`new/` when no flags accumulated and otherwise to `cur/` with exactly one
letter per received flag (`\Answered → R`, `\Seen → S`, `\Flagged → F`,
`\Draft → D`; `\Recent`, `\Deleted` and sentinels contribute nothing) in
emission order, clears `full_body`, and increments `fetched_messages`. -/
theorem C4_body_section_end (c : Client) (n : Nat) (fs : List Flag)
    (hst : c.state = State.FETCHING) (hfb : c.full_body = true) :
    (fs.foldl imap_flag (imap_data_fetch_begin c n)).flags_ = fs.filterMap maildirChar ∧
    imap_body_section_end (fs.foldl imap_flag (imap_data_fetch_begin c n)) =
      ({ c with flags_ := fs.filterMap maildirChar,
                buffer_proxy := BufTarget.memory,
                full_body := false,
                fetched_messages := c.fetched_messages + 1 },
       Effect.closeFile ::
         (if fs.filterMap maildirChar = [] then [Effect.moveToNew]
          else [Effect.moveToCur (fs.filterMap maildirChar)])) := by
  have h1 : fs.foldl imap_flag (imap_data_fetch_begin c n) =
      { c with flags_ := fs.filterMap maildirChar } := by
    rw [foldl_imap_flag]
    simp [imap_data_fetch_begin]
  rw [h1]
  refine ⟨rfl, ?_⟩
  simp [imap_body_section_end, hst, hfb]

/-- A client in mid-fetch of a full body, for the C4 witness. -/
def c4client : Client :=
  { sampleClient with state := State.FETCHING, full_body := true }

/-- Witness for C4 with flags `\Answered`, `\Deleted`, `\Seen`: the file
moves to `cur/` with suffix `RS` (`\Deleted` contributes nothing). -/
theorem C4_body_section_end_witness :
    c4client.state = State.FETCHING ∧ c4client.full_body = true ∧
    imap_body_section_end
        ([Flag.ANSWERED, Flag.DELETED, Flag.SEEN].foldl imap_flag
          (imap_data_fetch_begin c4client 1)) =
      ({ c4client with flags_ := ['R', 'S'],
                       buffer_proxy := BufTarget.memory,
                       full_body := false,
                       fetched_messages := c4client.fetched_messages + 1 },
       [Effect.closeFile, Effect.moveToCur ['R', 'S']]) := by
  refine ⟨rfl, rfl, ?_⟩
  have h := (C4_body_section_end c4client 1 [Flag.ANSWERED, Flag.DELETED, Flag.SEEN]
    rfl rfl).2
  simpa using h

/-- Claim C5: a read-completion error while in `LOGGED_OUT` that is a TLS
`SHORT_READ` or a transport `EOF` is swallowed, with no exception and no
further read enqueued; any other error in that state, and any error in any
other state, is fatal. -/
theorem C5_logged_out_read_errors (c : Client) (e : ErrCode) :
    (c.state = State.LOGGED_OUT →
       ((e.category = ErrCategory.ssl ∧
           e.value = ERR_PACK ERR_LIB_SSL 0 SSL_R_SHORT_READ) ∨
        (e.category = ErrCategory.misc ∧ e.value = eof_value)) →
       do_read_error c e = Except.ok (c, [])) ∧
    (¬ (c.state = State.LOGGED_OUT ∧
        ((e.category = ErrCategory.ssl ∧
            e.value = ERR_PACK ERR_LIB_SSL 0 SSL_R_SHORT_READ) ∨
         (e.category = ErrCategory.misc ∧ e.value = eof_value))) →
       do_read_error c e = Except.error "do_read() fail") := by
  constructor
  · intro h1 h2
    simp only [do_read_error]
    rw [if_pos ⟨h1, h2⟩]
  · intro h
    simp only [do_read_error]
    rw [if_neg h]

/-- A client that has completed LOGOUT, for the C5 witness. -/
def c5client : Client := { sampleClient with state := State.LOGGED_OUT }

/-- Witness for C5: a TLS SHORT_READ in `LOGGED_OUT` is swallowed. -/
theorem C5_logged_out_read_errors_witness :
    c5client.state = State.LOGGED_OUT ∧
    do_read_error c5client
        { category := ErrCategory.ssl, value := ERR_PACK ERR_LIB_SSL 0 SSL_R_SHORT_READ } =
      Except.ok (c5client, []) :=
  ⟨rfl, (C5_logged_out_read_errors c5client
      { category := ErrCategory.ssl, value := ERR_PACK ERR_LIB_SSL 0 SSL_R_SHORT_READ }).1
    rfl (Or.inl ⟨rfl, rfl⟩)⟩

/-- Counterexample to claim C6: the greeting-wait login timer's completion
handler does NOT swallow `operation_aborted` — it throws on every error, so a
cancellation surfacing there terminates the session. -/
theorem C6_login_timer_counterexample :
    pre_login_handler sampleClient
        (some { category := ErrCategory.system, value := operation_aborted_value }) =
      Except.error ("error_code " ++ Nat.repr operation_aborted_value) := rfl

/-- Claim C6 as amended: an `operation_aborted` cancellation is swallowed by
the 1-second periodic fetch-stats timer's completion handler (which returns
without re-arming); the greeting-wait login timer's handler instead treats
every error, `operation_aborted` included, as fatal (nothing in the program
cancels that timer). -/
theorem C6_timer_cancellation (c : Client) (e : ErrCode)
    (h : e.value = operation_aborted_value) :
    fetch_timer_handler c (some e) = Except.ok (c, []) ∧
    pre_login_handler c (some e) =
      Except.error ("error_code " ++ Nat.repr e.value) := by
  constructor
  · simp [fetch_timer_handler, h]
  · rfl

/-- Witness for the amended C6 at a concrete aborted timer wait. -/
theorem C6_timer_cancellation_witness :
    (({ category := ErrCategory.system, value := operation_aborted_value } : ErrCode).value
        = operation_aborted_value) ∧
    fetch_timer_handler sampleClient
        (some { category := ErrCategory.system, value := operation_aborted_value }) =
      Except.ok (sampleClient, []) :=
  ⟨rfl, (C6_timer_cancellation sampleClient
      { category := ErrCategory.system, value := operation_aborted_value } rfl).1⟩

/-- Claim C7: when LOGIN is dispatched with `LOGINDISABLED` among the
capabilities the session fails fatally and no LOGIN is written; otherwise the
capability set is cleared and the LOGIN command is written. -/
theorem C7_login_disabled (c : Client) :
    (Capability.LOGINDISABLED ∈ c.capabilities →
       do_login c = Except.error "Cannot login because server has LOGINDISABLED" ∧
       writtenCmds (do_login c) = []) ∧
    (Capability.LOGINDISABLED ∉ c.capabilities →
       do_login c =
         Except.ok
           ({ c with capabilities := [],
                     tag_counter := c.tag_counter + 1,
                     tag_to_state := (c.tag_counter, State.LOGGED_IN) :: c.tag_to_state,
                     exists_ := 0, recent_ := 0, uidvalidity_ := 0, uids := [] },
            [Effect.write (Cmd.login c.opts_username c.opts_password c.tag_counter)])) := by
  constructor
  · intro h
    constructor <;> simp [do_login, h, writtenCmds]
  · intro h
    simp [do_login, h]

/-- A client about to LOGIN whose server advertised `LOGINDISABLED`. -/
def c7client : Client :=
  { sampleClient with capabilities := [Capability.LOGINDISABLED] }

/-- Witness for C7: with `LOGINDISABLED` advertised, `do_login` is fatal. -/
theorem C7_login_disabled_witness :
    Capability.LOGINDISABLED ∈ c7client.capabilities ∧
    do_login c7client = Except.error "Cannot login because server has LOGINDISABLED" := by
  refine ⟨by decide, ?_⟩
  exact ((C7_login_disabled c7client).1 (by decide)).1

/-- Claim C8: a first delivered signal increments `signaled_`, re-arms the
signal wait and quits gracefully (transport cancel plus shutdown, no LOGOUT
command written); a second delivered signal fails fatally with the
immediate-exit message; a cancellation of the wait itself
(`operation_canceled`) is ignored. -/
theorem C8_signal_handling (c : Client) (e : ErrCode) (n : Nat) :
    (c.signaled = 0 →
       signal_handler c none n =
         Except.ok ({ c with signaled := c.signaled + 1 },
           [Effect.rearmSignalWait, Effect.cancelTransport, Effect.asyncShutdown]) ∧
       writtenCmds (signal_handler c none n) = []) ∧
    (c.signaled ≠ 0 →
       signal_handler c none n =
         Except.error
           ("Got a signal (" ++ Nat.repr n ++ ") the second time - immediate exit")) ∧
    (e.value = operation_canceled_value →
       signal_handler c (some e) n = Except.ok (c, [])) := by
  refine ⟨?_, ?_, ?_⟩
  · intro h
    constructor <;> simp [signal_handler, h, writtenCmds]
  · intro h
    simp [signal_handler, h]
  · intro h
    simp [signal_handler, h]

/-- Witness for C8: the first SIGINT on a fresh client quits gracefully. -/
theorem C8_signal_handling_witness :
    sampleClient.signaled = 0 ∧
    signal_handler sampleClient none 2 =
      Except.ok ({ sampleClient with signaled := sampleClient.signaled + 1 },
        [Effect.rearmSignalWait, Effect.cancelTransport, Effect.asyncShutdown]) :=
  ⟨rfl, ((C8_signal_handling sampleClient
      { category := ErrCategory.system, value := 0 } 2).1 rfl).1⟩

/-- Claim C9: every successful emission of LOGIN resets the mailbox metadata:
`exists_`, `recent_` and `uidvalidity_` become 0 and the collected UID set is
cleared, so no previously recorded UID can reach a later STORE/EXPUNGE set. -/
theorem C9_login_resets_mailbox_metadata (c c2 : Client) (effs : List Effect)
    (h : do_login c = Except.ok (c2, effs)) :
    c2.exists_ = 0 ∧ c2.recent_ = 0 ∧ c2.uidvalidity_ = 0 ∧ c2.uids = [] := by
  by_cases hd : Capability.LOGINDISABLED ∈ c.capabilities
  · simp [do_login, hd] at h
  · simp only [do_login, if_neg hd, Except.ok.injEq, Prod.mk.injEq] at h
    obtain ⟨hc, -⟩ := h
    rw [← hc]
    simp

/-- The client produced by a successful LOGIN from `sampleClient`. -/
def c9result : Client :=
  { sampleClient with capabilities := [],
                      tag_counter := sampleClient.tag_counter + 1,
                      tag_to_state :=
                        (sampleClient.tag_counter, State.LOGGED_IN) :: sampleClient.tag_to_state,
                      exists_ := 0, recent_ := 0, uidvalidity_ := 0, uids := [] }

/-- Witness for C9 at the concrete client `sampleClient`. -/
theorem C9_login_resets_mailbox_metadata_witness :
    do_login sampleClient =
      Except.ok (c9result,
        [Effect.write (Cmd.login sampleClient.opts_username sampleClient.opts_password
          sampleClient.tag_counter)]) ∧
    c9result.exists_ = 0 ∧ c9result.recent_ = 0 ∧ c9result.uidvalidity_ = 0 ∧
    c9result.uids = [] :=
  ⟨rfl, C9_login_resets_mailbox_metadata sampleClient c9result
    [Effect.write (Cmd.login sampleClient.opts_username sampleClient.opts_password
      sampleClient.tag_counter)] rfl⟩

end IMAP
